import Mathlib

/-!
Verification development for the drupal-nodejs-typescript push gateway.

The TypeScript sources are shallowly embedded: JavaScript plain-object maps
become association lists (own properties, first binding wins), strings keep
their `String` type or, where character codes matter, become lists of
code points (`List Nat`), and the stateful `ClientManager` becomes a record
`ClientManagerState` with one Lean function per source method.
-/

namespace DrupalNodejs

/-- Lookup in a JavaScript plain-object map modelled as an association list:
the first binding for the key, `none` when the key is absent. -/
def mapGet {κ α : Type} [DecidableEq κ] (l : List (κ × α)) (k : κ) : Option α :=
  match l with
  | [] => none
  | p :: rest => if p.1 = k then some p.2 else mapGet rest k

/-- Assignment `obj[k] = v`: replaces any previous binding for `k`. -/
def mapSet {κ α : Type} [DecidableEq κ] (l : List (κ × α)) (k : κ) (v : α) : List (κ × α) :=
  (k, v) :: l.filter (fun p => p.1 ≠ k)

/-- Deletion `delete obj[k]`. -/
def mapDel {κ α : Type} [DecidableEq κ] (l : List (κ × α)) (k : κ) : List (κ × α) :=
  l.filter (fun p => p.1 ≠ k)

/-- Membership test, as in `obj.hasOwnProperty(k)`. -/
def mapHas {κ α : Type} [DecidableEq κ] (l : List (κ × α)) (k : κ) : Bool :=
  (mapGet l k).isSome

namespace Backend

/-- The XOR accumulator loop of `Backend.checkServiceKey` (`lib/backend.ts`,
the constant-time variant): for each position of the presented key, OR into
the accumulator the XOR of the two code points at that position.  Keys are
modelled as their lists of UTF-16 code points.  `charCodeAt` past the end of
the configured key yields NaN, which the JavaScript bitwise operators coerce
to 0; `List.getD _ _ 0` models that. -/
def serviceKeyMismatch (configuredKey presentedKey : List Nat) : Nat :=
  (List.range presentedKey.length).foldl
    (fun m i => m ||| ((presentedKey.getD i 0) ^^^ (configuredKey.getD i 0))) 0

/-- `Backend.checkServiceKey(serviceKey)`: when a service key is configured
(non-empty, since the source guards on JavaScript truthiness of the string),
reject exactly when the lengths differ or the XOR accumulator is non-zero;
otherwise always accept. -/
def checkServiceKey (configuredKey presentedKey : List Nat) : Bool :=
  if configuredKey.isEmpty then true
  else if presentedKey.length ≠ configuredKey.length ∨
      serviceKeyMismatch configuredKey presentedKey ≠ 0 then false
  else true

end Backend

/-- A primitive JavaScript value, as found in schemaless JSON from the
backend and in route parameters.  Numbers are restricted to the naturals,
which covers every numeric value these code paths produce (uids, flags). -/
inductive JSVal where
  | jnull : JSVal
  | jbool : Bool → JSVal
  | jnum : Nat → JSVal
  | jstr : String → JSVal
deriving DecidableEq, Repr

/-- JavaScript truthiness of a primitive value. -/
def jsTruthy : JSVal → Bool
  | .jnull => false
  | .jbool b => b
  | .jnum n => n ≠ 0
  | .jstr s => s ≠ ""

/-- Truthiness of a possibly absent object field (absent reads as
undefined, which is falsy). -/
def jsTruthyOpt : Option JSVal → Bool
  | none => false
  | some v => jsTruthy v

/-- ToNumber on the strings these code paths compare: a digit string maps
to its value, the empty string to 0, everything else to none (NaN). -/
def jsToNumber (s : String) : Option Nat :=
  if s = "" then some 0 else s.toNat?

/-- Loose equality `n == v` between a number and a primitive value, as used
by `getNodejsSessionIdsFromUid` (`socket.uid == uid`). -/
def jsLooseEqNum (n : Nat) : JSVal → Bool
  | .jnum m => n = m
  | .jstr s => jsToNumber s = some n
  | .jbool b => n = (if b then 1 else 0)
  | .jnull => false

/-- Strict equality `v1 === v2`: same type and same value. -/
def jsStrictEq (v1 v2 : JSVal) : Bool := v1 = v2

/-- The authentication payload the backend returns for an authToken.  The
source stores the whole parsed JSON object into `authenticatedClients`
(client-manager.ts line 243), so all fields the manager reads are kept:
`error` and `nodejsValidAuthToken` stay schemaless primitive values. -/
structure AuthData where
  authToken : String := ""
  clientId : String := ""
  uid : Nat := 0
  channels : List String := []
  presenceUids : List Nat := []
  contentTokens : List (String × String) := []
  error : Option JSVal := none
  nodejsValidAuthToken : Option JSVal := none
deriving DecidableEq, Repr

/-- The per-socket data the manager stamps onto an authenticated socket
handle (`authToken` and `uid`, client-manager.ts lines 258-259). -/
structure SocketData where
  authToken : String := ""
  uid : Nat := 0
deriving DecidableEq, Repr

/-- A named broadcast channel: its member map (sessionId to sessionId, as
in the source) and the optional client-writable flag. -/
structure ChannelData where
  sessionIds : List (String × String) := []
  isClientWritable : Option Bool := none
deriving DecidableEq, Repr

/-- The metadata payload stored under a content token; the manager itself
only reads its `notifyOnDisconnect` field. -/
structure TokenPayload where
  notifyOnDisconnect : Bool := false
deriving DecidableEq, Repr

/-- A token channel: queued tokens and the sockets that redeemed one. -/
structure TokenChannelData where
  tokens : List (String × TokenPayload) := []
  sockets : List (String × TokenPayload) := []
deriving DecidableEq, Repr

/-- The mutable state of `ClientManager`.  Timer maps are modelled by the
set of keys whose timer is currently armed: the source stores `Timeout`
handles and a fired or cleared handle is semantically disarmed. -/
structure ClientManagerState where
  preAuthSockets : List String := []
  sockets : List (String × SocketData) := []
  authenticatedClients : List (String × AuthData) := []
  onlineUsers : List (Nat × List Nat) := []
  presenceTimeoutIds : List Nat := []
  contentChannelTimeoutIds : List (String × Nat) := []
  channels : List (String × ChannelData) := []
  tokenChannels : List (String × TokenChannelData) := []
deriving DecidableEq, Repr

/-- The empty initial state of a freshly constructed manager. -/
def initialState : ClientManagerState := {}

/-- An observable side effect of a manager operation: a fire-and-forget
POST to the backend, a presence notification pushed to one socket, or a
generic message pushed to one socket. -/
inductive Effect where
  | backendMessage : Nat → String → Effect
  | presenceNotify : String → Nat → String → Effect
  | clientMessage : String → Effect
deriving DecidableEq, Repr

namespace ClientManager

/-- `addSocket`: register a new transport connection in `preAuthSockets`. -/
def addSocket (st : ClientManagerState) (id : String) : ClientManagerState :=
  { st with preAuthSockets := id :: st.preAuthSockets.filter (· ≠ id) }

/-- `channelIsClientWritable`: the channel's flag when the channel exists,
undefined (falsy) when the flag is unset, false when the channel is absent. -/
def channelIsClientWritable (st : ClientManagerState) (channel : String) : Bool :=
  match mapGet st.channels channel with
  | some c => c.isClientWritable.getD false
  | none => false

/-- `clientIsInChannel`: the stored sessionId string when present (used for
its truthiness by the caller), false when channel or member is absent. -/
def clientIsInChannel (st : ClientManagerState) (socketId channel : String) : Bool :=
  match mapGet st.channels channel with
  | none => false
  | some c =>
      match mapGet c.sessionIds socketId with
      | some v => v ≠ ""
      | none => false

/-- `getNodejsSessionIdsFromUid`: ids of registered authenticated sockets
whose `uid` loosely equals the given value. -/
def getNodejsSessionIdsFromUid (st : ClientManagerState) (uid : JSVal) : List String :=
  (st.sockets.filter (fun p => jsLooseEqNum p.2.uid uid)).map (·.1)

/-- An inbound client `message` event: the manager only inspects whether a
`type` field is present and whether a `channel` field is present (and its
value). -/
structure ClientMessage where
  hasTypeField : Bool := false
  channel : Option String := none
deriving DecidableEq, Repr

/-- An event the manager can emit on the process-wide bus in response to an
inbound client message. -/
inductive ClientMessageEvent where
  | toChannelMessage : String → ClientMessage → ClientMessageEvent
  | toClientMessage : String → ClientMessage → ClientMessageEvent
deriving DecidableEq, Repr

/-- `processMessage`: authenticated sockets with a typed message either
write to a channel (when the channel is client-writable and the socket is a
member) or to clients (when the global setting allows it); everything else
is dropped. `clientsCanWriteToClients` is the settings flag the source
reads from `this.settings`. -/
def processMessage (st : ClientManagerState) (clientsCanWriteToClients : Bool)
    (socketId : String) (message : ClientMessage) : Option ClientMessageEvent :=
  if mapHas st.sockets socketId ∧ message.hasTypeField then
    match message.channel with
    | some channel =>
        if channelIsClientWritable st channel ∧ clientIsInChannel st socketId channel then
          some (.toChannelMessage socketId message)
        else
          none
    | none =>
        if clientsCanWriteToClients then some (.toClientMessage socketId message)
        else none
  else
    none

/-- `addChannel`: fail when present, else create an empty channel. -/
def addChannel (st : ClientManagerState) (channel : String) :
    Bool × ClientManagerState :=
  if mapHas st.channels channel then (false, st)
  else (true, { st with channels := mapSet st.channels channel {} })

/-- `checkChannel`: whether a channel of that name exists. -/
def checkChannel (st : ClientManagerState) (channel : String) : Bool :=
  mapHas st.channels channel

/-- `removeChannel`: delete when present, else fail. -/
def removeChannel (st : ClientManagerState) (channel : String) :
    Bool × ClientManagerState :=
  if mapHas st.channels channel then
    (true, { st with channels := mapDel st.channels channel })
  else (false, st)

/-- Ensure-and-join step used by `setupClientConnection` and the
user/authToken channel-add operations: create the channel when absent, then
store the session id in its member map. -/
def addSessionToChannel (channels : List (String × ChannelData))
    (channel sessionId : String) : List (String × ChannelData) :=
  let c := (mapGet channels channel).getD {}
  mapSet channels channel { c with sessionIds := mapSet c.sessionIds sessionId sessionId }

/-- `sendPresenceChangeNotification`: one notification per active session of
every observer uid listed in `onlineUsers[uid]`. -/
def sendPresenceChangeNotification (st : ClientManagerState) (uid : Nat)
    (presenceEvent : String) : List Effect :=
  match mapGet st.onlineUsers uid with
  | none => []
  | some observers =>
      (observers.map (fun ob =>
        (getNodejsSessionIdsFromUid st (.jnum ob)).map
          (fun sid => Effect.presenceNotify sid uid presenceEvent))).flatten

/-- One iteration of the contentTokens loop in `setupClientConnection`:
ensure the token channel exists, then, when the offered token is queued,
move its payload to the socket's entry and drop the token. -/
def redeemContentToken (sessionId : String) (s : ClientManagerState)
    (p : String × String) : ClientManagerState :=
  let s := if mapHas s.tokenChannels p.1 then s
           else { s with tokenChannels := mapSet s.tokenChannels p.1 {} }
  let ch := (mapGet s.tokenChannels p.1).getD {}
  match mapGet ch.tokens p.2 with
  | some payload =>
      let moved : TokenChannelData :=
        { tokens := mapDel ch.tokens p.2,
          sockets := mapSet ch.sockets sessionId payload }
      { s with tokenChannels := mapSet s.tokenChannels p.1 moved }
  | none => s

/-- The presence block of `setupClientConnection` (client-manager.ts lines
269-278): for a non-zero uid, record whether the uid was absent from
`onlineUsers`, store its presence list there, and when it was absent post
userOnline to the backend and notify observers. -/
def markUserOnline (st : ClientManagerState) (authData : AuthData) :
    ClientManagerState × List Effect :=
  if authData.uid ≠ 0 then
    let sendPresenceChange := ¬ mapHas st.onlineUsers authData.uid
    let s := { st with
      onlineUsers := mapSet st.onlineUsers authData.uid authData.presenceUids }
    if sendPresenceChange then
      (s, Effect.backendMessage authData.uid "userOnline" ::
        sendPresenceChangeNotification s authData.uid "online")
    else (s, ([] : List Effect))
  else (st, ([] : List Effect))

/-- `setupClientConnection(sessionId, authData, contentTokens)`: abort when
the socket already left `preAuthSockets`; otherwise move it to `sockets`
stamped with the identity, join it to the identity's channels, mark the uid
online (posting userOnline and notifying observers only when it was not
online already), redeem each offered content token, and finally push the
clientAuthenticated message to the socket. -/
def setupClientConnection (st : ClientManagerState) (sessionId : String)
    (authData : AuthData) (contentTokens : List (String × String)) :
    ClientManagerState × List Effect :=
  if sessionId ∈ st.preAuthSockets then
    let st1 := { st with
      preAuthSockets := st.preAuthSockets.filter (· ≠ sessionId),
      sockets := mapSet st.sockets sessionId
        { authToken := authData.authToken, uid := authData.uid } }
    let st2 := authData.channels.foldl
      (fun s ch => { s with channels := addSessionToChannel s.channels ch sessionId }) st1
    let next := markUserOnline st2 authData
    let st4 := contentTokens.foldl (redeemContentToken sessionId) next.1
    (st4, next.2 ++ [Effect.clientMessage sessionId])
  else (st, [])

/-- `authenticateClientCallback(error, response, body)`: reject on transport
error, status 404 or 301, an unparseable body (modelled as `none`), a truthy
`error` field, or a falsy `nodejsValidAuthToken`; on success set up the
connection under `body.clientId` and store the whole payload under
`body.authToken`.  Returns the source's boolean together with the updated
state and emitted effects. -/
def authenticateClientCallback (st : ClientManagerState) (error : Bool)
    (statusCode : Nat) (body : Option AuthData) :
    Bool × ClientManagerState × List Effect :=
  if error then (false, st, [])
  else if statusCode = 404 then (false, st, [])
  else if statusCode = 301 then (false, st, [])
  else
    match body with
    | none => (false, st, [])
    | some authData =>
        if jsTruthyOpt authData.error then (false, st, [])
        else if ¬ jsTruthy (authData.nodejsValidAuthToken.getD .jnull) then (false, st, [])
        else
          let r := setupClientConnection st authData.clientId authData authData.contentTokens
          let stored := mapSet r.1.authenticatedClients authData.authToken authData
          (true, { r.1 with authenticatedClients := stored }, r.2)

/-- Observable outcome of processing one backend authentication response. -/
structure AuthOutcome where
  state : ClientManagerState
  effects : List Effect
  ackInvoked : Bool
  disconnected : Bool
deriving DecidableEq, Repr

/-- The response lambda inside `authenticateClient` (lines 113-121): when
the callback reports failure, disconnect the socket recorded under
`message.clientId` and drop it from `preAuthSockets` without acking;
otherwise invoke the ack callback when one was provided. -/
def authenticateResponseHandler (st : ClientManagerState) (msgClientId : String)
    (ackProvided : Bool) (error : Bool) (statusCode : Nat)
    (body : Option AuthData) : AuthOutcome :=
  let r := authenticateClientCallback st error statusCode body
  if r.1 then
    { state := r.2.1, effects := r.2.2, ackInvoked := ackProvided, disconnected := false }
  else
    { state := { r.2.1 with
        preAuthSockets := r.2.1.preAuthSockets.filter (· ≠ msgClientId) },
      effects := r.2.2, ackInvoked := false, disconnected := true }

/-- `cleanupSocket(socket)`: pre-auth sockets are simply dropped; otherwise
prune the socket from every channel, arm the presence grace timer when its
uid is non-zero, arm the token-channel timers for token channels that hold
it with `notifyOnDisconnect`, drop it from those token channels, and
deregister it.  The source reads `socket.uid` from the disconnecting
handle; for a registered socket the handle and the registry entry are the
same object, so the uid is read from the registry here. -/
def cleanupSocket (st : ClientManagerState) (id : String) : ClientManagerState :=
  if id ∈ st.preAuthSockets then
    { st with preAuthSockets := st.preAuthSockets.filter (· ≠ id) }
  else
    let uid := ((mapGet st.sockets id).map SocketData.uid).getD 0
    let chans := st.channels.map
      (fun p => (p.1, { p.2 with sessionIds := mapDel p.2.sessionIds id }))
    let ptimers :=
      if uid ≠ 0 then uid :: st.presenceTimeoutIds.filter (· ≠ uid)
      else st.presenceTimeoutIds
    let notifying := (st.tokenChannels.filter (fun p =>
      match mapGet p.2.sockets id with
      | some payload => payload.notifyOnDisconnect
      | none => false)).map (·.1)
    let ctimers := notifying.foldl
      (fun acc tc => (tc, uid) :: acc.filter (· ≠ (tc, uid))) st.contentChannelTimeoutIds
    let tchans := st.tokenChannels.map
      (fun p => (p.1, { p.2 with sockets := mapDel p.2.sockets id }))
    { st with
      channels := chans,
      presenceTimeoutIds := ptimers,
      contentChannelTimeoutIds := ctimers,
      tokenChannels := tchans,
      sockets := mapDel st.sockets id }

/-- `setUserOffline(uid)`: notify observers, drop the uid from
`onlineUsers`, and post userOffline to the backend. -/
def setUserOffline (st : ClientManagerState) (uid : Nat) :
    ClientManagerState × List Effect :=
  let effs := sendPresenceChangeNotification st uid "offline"
  ({ st with onlineUsers := st.onlineUsers.filter (fun p => p.1 ≠ uid) },
    effs ++ [Effect.backendMessage uid "userOffline"])

/-- `checkOnlineStatus(uid)`: go offline only when no registered socket for
the uid remains. -/
def checkOnlineStatus (st : ClientManagerState) (uid : Nat) :
    ClientManagerState × List Effect :=
  if getNodejsSessionIdsFromUid st (.jnum uid) = [] then setUserOffline st uid
  else (st, [])

/-- Firing of the presence grace timer armed for `uid`: the timer disarms
and its callback runs `checkOnlineStatus(uid)`. -/
def presenceTimerFire (st : ClientManagerState) (uid : Nat) :
    ClientManagerState × List Effect :=
  checkOnlineStatus
    { st with presenceTimeoutIds := st.presenceTimeoutIds.filter (· ≠ uid) } uid

/-- `kickUser(uid)`: drop every identity whose uid is strictly equal to the
argument, then deregister every socket whose uid is strictly equal to it and
prune those session ids from every channel.  The runtime argument is the
raw value the caller passed: the admin route passes the URL path parameter,
a string. -/
def kickUser (st : ClientManagerState) (uid : JSVal) : ClientManagerState :=
  let remaining := st.authenticatedClients.filter (fun p => ¬ jsStrictEq (.jnum p.2.uid) uid)
  let st1 := { st with authenticatedClients := remaining }
  let kicked := (st1.sockets.filter (fun p => jsStrictEq (.jnum p.2.uid) uid)).map (·.1)
  kicked.foldl (fun s cid =>
    let prunedChannels := s.channels.map
      (fun p => (p.1, { p.2 with sessionIds := mapDel p.2.sessionIds cid }))
    { s with
      sockets := mapDel s.sockets cid,
      channels := prunedChannels }) st1

/-- `logoutUser(authToken)` (the `ClientManager` method): delete the
identity, then run the full socket cleanup for every socket registered
under that authToken. -/
def logoutUser (st : ClientManagerState) (authToken : String) : ClientManagerState :=
  let st1 := { st with authenticatedClients := mapDel st.authenticatedClients authToken }
  let ids := (st1.sockets.filter (fun p => p.2.authToken = authToken)).map (·.1)
  ids.foldl cleanupSocket st1

/-- `getNodejsSessionIdsFromAuthToken`: ids of sockets registered under the
authToken (strict string equality in the source). -/
def getNodejsSessionIdsFromAuthToken (st : ClientManagerState) (authToken : String) :
    List String :=
  (st.sockets.filter (fun p => p.2.authToken = authToken)).map (·.1)

/-- `addUserToChannel(channel, uid)`: ensure the channel exists (also on
failure), fail when the uid has no active session, else join every session
and append the channel to every identity with that uid (strict equality)
unless already listed. -/
def addUserToChannel (st : ClientManagerState) (channel : String) (uid : JSVal) :
    Bool × ClientManagerState :=
  let st1 :=
    if mapHas st.channels channel then st
    else { st with channels := mapSet st.channels channel {} }
  let sessionIds := getNodejsSessionIdsFromUid st1 uid
  if sessionIds.length > 0 then
    let st2 := sessionIds.foldl
      (fun s sid => { s with channels := addSessionToChannel s.channels channel sid }) st1
    let appended := st2.authenticatedClients.map (fun p =>
      if jsStrictEq (.jnum p.2.uid) uid ∧ channel ∉ p.2.channels then
        (p.1, { p.2 with channels := p.2.channels ++ [channel] })
      else p)
    (true, { st2 with authenticatedClients := appended })
  else (false, st1)

/-- Own property names of the function object that the compiled
`authenticateClient` method is; the source's identity-pruning guard in
`removeUserFromChannel` mistakenly queries
`this.authenticateClient.hasOwnProperty(authToken)` against it. -/
def functionObjectOwnProps : List String := ["length", "name", "prototype"]

/-- `removeUserFromChannel(channel, uid)`: fail when the channel is absent;
otherwise remove the uid's sessions from the channel and, for every
identity whose authToken is an own property of the `authenticateClient`
function object (the source's slip) and whose uid strictly equals the
argument, drop the channel from its channel list. -/
def removeUserFromChannel (st : ClientManagerState) (channel : String) (uid : JSVal) :
    Bool × ClientManagerState :=
  match mapGet st.channels channel with
  | some _ =>
      let sessionIds := getNodejsSessionIdsFromUid st uid
      let prunedChannels := st.channels.map (fun p =>
        if p.1 = channel then
          (p.1, { p.2 with sessionIds := sessionIds.foldl mapDel p.2.sessionIds })
        else p)
      let st1 := { st with channels := prunedChannels }
      let prunedClients := st1.authenticatedClients.map (fun p =>
        if p.1 ∈ functionObjectOwnProps ∧ jsStrictEq (.jnum p.2.uid) uid then
          (p.1, { p.2 with channels := p.2.channels.erase channel })
        else p)
      (true, { st1 with authenticatedClients := prunedClients })
  | none => (false, st)

/-- `addAuthTokenToChannel(channel, authToken)`: like `addUserToChannel`
but keyed by authToken; fails on an unknown authToken or when it has no
active session. -/
def addAuthTokenToChannel (st : ClientManagerState) (channel authToken : String) :
    Bool × ClientManagerState :=
  match mapGet st.authenticatedClients authToken with
  | none => (false, st)
  | some _ =>
      let st1 :=
        if mapHas st.channels channel then st
        else { st with channels := mapSet st.channels channel {} }
      let sessionIds := getNodejsSessionIdsFromAuthToken st1 authToken
      if sessionIds.length > 0 then
        let st2 := sessionIds.foldl
          (fun s sid => { s with channels := addSessionToChannel s.channels channel sid }) st1
        let appended := st2.authenticatedClients.map (fun p =>
          if p.1 = authToken ∧ channel ∉ p.2.channels then
            (p.1, { p.2 with channels := p.2.channels ++ [channel] })
          else p)
        (true, { st2 with authenticatedClients := appended })
      else (false, st1)

/-- `removeAuthTokenFromChannel(channel, authToken)`: fails on an unknown
authToken or absent channel; otherwise removes the token's sessions from
the channel and the channel from that identity's channel list. -/
def removeAuthTokenFromChannel (st : ClientManagerState) (channel authToken : String) :
    Bool × ClientManagerState :=
  match mapGet st.authenticatedClients authToken with
  | none => (false, st)
  | some _ =>
      match mapGet st.channels channel with
      | some _ =>
          let sessionIds := getNodejsSessionIdsFromAuthToken st authToken
          let prunedChannels := st.channels.map (fun p =>
            if p.1 = channel then
              (p.1, { p.2 with sessionIds := sessionIds.foldl mapDel p.2.sessionIds })
            else p)
          let st1 := { st with channels := prunedChannels }
          let prunedClients := st1.authenticatedClients.map (fun p =>
            if p.1 = authToken then
              (p.1, { p.2 with channels := p.2.channels.erase channel })
            else p)
          (true, { st1 with authenticatedClients := prunedClients })
      | none => (false, st)

/-- `setUserPresenceList(uid, uidList)`: validate that every entry prints
as a digit string, then store the list into `onlineUsers[uid]`. -/
def setUserPresenceList (st : ClientManagerState) (uid : Nat) (uidList : List Nat) :
    Bool × ClientManagerState :=
  if uidList.all (fun u => toString u ≠ "" ∧ (toString u).all Char.isDigit) then
    (true, { st with onlineUsers := mapSet st.onlineUsers uid uidList })
  else (false, st)

/-- `setContentToken(channel, token, value)`: ensure the token channel and
queue the payload under the token. -/
def setContentToken (st : ClientManagerState) (channel token : String)
    (value : TokenPayload) : ClientManagerState :=
  let ch := (mapGet st.tokenChannels channel).getD {}
  let updated : TokenChannelData := { ch with tokens := mapSet ch.tokens token value }
  { st with tokenChannels := mapSet st.tokenChannels channel updated }

/-- The rejection condition of the authentication response path as the
source computes it: transport error, status 404 or 301, unparseable body,
truthy `error` field, or falsy `nodejsValidAuthToken`. -/
def authRejectCondition (error : Bool) (statusCode : Nat) (body : Option AuthData) : Bool :=
  error || (statusCode == 404) || (statusCode == 301) ||
    (match body with
     | none => true
     | some a => jsTruthyOpt a.error || !(jsTruthyOpt a.nodejsValidAuthToken))

/-- The outcome of a rejected authentication response: the socket under
`message.clientId` is disconnected and dropped from `preAuthSockets`, no
ack, no effects. -/
def authRejectOutcome (st : ClientManagerState) (msgClientId : String) : AuthOutcome :=
  { state := { st with preAuthSockets := st.preAuthSockets.filter (· ≠ msgClientId) },
    effects := [], ackInvoked := false, disconnected := true }

/-- The outcome of an accepted authentication response: the connection is
set up under `body.clientId`, the payload is stored under `body.authToken`,
and the ack fires exactly when a callback was provided. -/
def authSuccessOutcome (st : ClientManagerState) (ackProvided : Bool)
    (a : AuthData) : AuthOutcome :=
  let r := setupClientConnection st a.clientId a a.contentTokens
  { state := { r.1 with authenticatedClients := mapSet r.1.authenticatedClients a.authToken a },
    effects := r.2, ackInvoked := ackProvided, disconnected := false }

/-- The rejection condition as the spec sentence words it: transport error,
404, 301, non-JSON body, a body containing an error field, or
`nodejsValidAuthToken != true` under JavaScript loose comparison. -/
def specRejectCondition (error : Bool) (statusCode : Nat) (body : Option AuthData) : Bool :=
  error || (statusCode == 404) || (statusCode == 301) ||
    (match body with
     | none => true
     | some a => a.error.isSome ||
        !(match a.nodejsValidAuthToken with
          | some (.jbool b) => b
          | some (.jnum n) => n == 1
          | some (.jstr s) => jsToNumber s == some 1
          | _ => false))

/-- A backend response body whose error field is present but false. -/
def authBodyErrorFalse : AuthData :=
  { authToken := "t1", clientId := "c1", uid := 1,
    error := some (.jbool false), nodejsValidAuthToken := some (.jbool true) }

/-- A backend response body whose nodejsValidAuthToken is 2: truthy, yet
not loosely equal to true. -/
def authBodyTokenTwo : AuthData :=
  { authToken := "t2", clientId := "c2", uid := 2,
    nodejsValidAuthToken := some (.jnum 2) }

/-- A state in which uid 7 has an armed grace timer and a live reconnected
socket, as after a disconnect followed by a quick reconnect. -/
def presenceDemoState : ClientManagerState :=
  { sockets := [("s2", { authToken := "tok", uid := 7 })],
    onlineUsers := [(7, [])],
    presenceTimeoutIds := [7] }

/-- A state with one authenticated socket and one identity for uid 666,
the uid used by the repository's own test suite. -/
def kickDemoState : ClientManagerState :=
  { sockets := [("s1", { authToken := "tok", uid := 666 })],
    authenticatedClients := [("tok", { authToken := "tok", uid := 666 })],
    channels := [("c", { sessionIds := [("s1", "s1")] })],
    onlineUsers := [(666, [])] }

/-- A state with one authenticated socket and one identity under
authToken tok1. -/
def logoutDemoState : ClientManagerState :=
  { sockets := [("s1", { authToken := "tok1", uid := 7 })],
    authenticatedClients := [("tok1", { authToken := "tok1", uid := 7 })],
    onlineUsers := [(7, [])] }

/-- A state with channel c and an identity of uid 7 listing c, matching
removeUserFromChannel's intended reversal scenario. -/
def removeDemoState : ClientManagerState :=
  { channels := [("c", {})],
    authenticatedClients :=
      [("token_1", { authToken := "token_1", uid := 7, channels := ["c"] })] }

end ClientManager

namespace Routes

open ClientManager

/-- Reply object an admin route sends. -/
inductive RouteReply where
  | success : RouteReply
  | failed : String → RouteReply
deriving DecidableEq, Repr

/-- The kickUser route (`routes.ts` lines 74-88): requires a truthy uid
path parameter and passes it, still a string, to `ClientManager.kickUser`. -/
def routeKickUser (st : ClientManagerState) (uidParam : Option String) :
    ClientManagerState × RouteReply :=
  match uidParam with
  | some u =>
      if u ≠ "" then (kickUser st (.jstr u), .success)
      else (st, .failed "missing uid")
  | none => (st, .failed "missing uid")

/-- The logoutUser route (`routes.ts` lines 93-110): requires a truthy
authtoken path parameter and then calls `ClientManager.kickUser` with it
(the source invokes `kickUser`, not `logoutUser`). -/
def routeLogoutUser (st : ClientManagerState) (authtokenParam : Option String) :
    ClientManagerState × RouteReply :=
  let authToken := authtokenParam.getD ""
  if authToken ≠ "" then (kickUser st (.jstr authToken), .success)
  else (st, .failed "missing authToken")

/-- A thrown JavaScript exception escaping a route handler. -/
inductive RouteError where
  | typeError : RouteError
deriving DecidableEq, Repr

/-- The user/presence-list route handler (`routes.ts` lines 295-326),
taking the Express params map built from the matched path.  Its first
statements read `request.params.uid` and
`request.params.uidlist.split(',')`; when the params map has no `uidlist`
key the latter dereferences undefined and throws a TypeError.  The
remaining logic validates and calls `setUserPresenceList` (whose declared
parameters are numbers; the handler passes the strings it parsed, coerced
here to keep the declared types). -/
def setUserPresenceListRoute (st : ClientManagerState)
    (params : List (String × String)) :
    Except RouteError (RouteReply × ClientManagerState) :=
  let uid := (mapGet params "uid").getD ""
  match mapGet params "uidlist" with
  | none => .error .typeError
  | some raw =>
      let uidList := raw.splitOn ","
      if uid ≠ "" ∧ uidList ≠ [] then
        if ¬ (uid ≠ "" ∧ uid.all Char.isDigit) then .ok (.failed "Invalid uid.", st)
        else if uidList.length = 0 then .ok (.failed "Empty uid list.", st)
        else
          let r := setUserPresenceList st (uid.toNat?.getD 0)
            (uidList.map (fun s => s.toNat?.getD 0))
          if r.1 then .ok (.success, r.2) else .ok (.failed "Invalid uid.", st)
      else .ok (.failed "Invalid parameters.", st)

end Routes

/-- Well-formedness of a manager state: pre-auth ids are not registered as
authenticated, registered socket ids are unique (the transport issues
unique ids), and the C7 presence invariant holds for every real (non-zero)
uid: the uid is online exactly when it has a registered socket or an armed
grace timer. -/
def WellFormedState (st : ClientManagerState) : Prop :=
  (∀ id ∈ st.preAuthSockets, mapGet st.sockets id = none) ∧
  (st.sockets.map Prod.fst).Nodup ∧
  (∀ u : Nat, 0 < u →
    (mapHas st.onlineUsers u = true ↔
      ((∃ p ∈ st.sockets, p.2.uid = u) ∨ u ∈ st.presenceTimeoutIds)))

/-- One event of the gateway: a transport connection, an authentication
(cached or via the backend response handler), a transport disconnect for a
live handle with a fresh transport id, a presence grace timer firing, or
one of the state-changing admin verbs with its route-typed parameters.  The
setUserPresenceList verb is not included: its store operation violates the
presence invariant (see the counterexample below). -/
inductive Step : ClientManagerState → ClientManagerState → Prop where
  | addSocketStep (st : ClientManagerState) (id : String)
      (hfresh : mapGet st.sockets id = none) :
      Step st (ClientManager.addSocket st id)
  | authCachedStep (st : ClientManagerState) (sid token : String)
      (cts : List (String × String)) (a : AuthData)
      (hcache : mapGet st.authenticatedClients token = some a) :
      Step st (ClientManager.setupClientConnection st sid a cts).1
  | authResponseStep (st : ClientManagerState) (msgClientId : String)
      (ackProvided error : Bool) (statusCode : Nat) (body : Option AuthData) :
      Step st (ClientManager.authenticateResponseHandler st msgClientId ackProvided
        error statusCode body).state
  | disconnectStep (st : ClientManagerState) (id : String)
      (hlive : id ∈ st.preAuthSockets ∨ mapHas st.sockets id = true) :
      Step st (ClientManager.cleanupSocket st id)
  | presenceTimerFireStep (st : ClientManagerState) (uid : Nat)
      (harmed : uid ∈ st.presenceTimeoutIds) :
      Step st (ClientManager.presenceTimerFire st uid).1
  | kickUserVerbStep (st : ClientManagerState) (uidParam : Option String) :
      Step st (Routes.routeKickUser st uidParam).1
  | logoutUserVerbStep (st : ClientManagerState) (tokenParam : Option String) :
      Step st (Routes.routeLogoutUser st tokenParam).1
  | addUserToChannelVerbStep (st : ClientManagerState) (channel : String) (uid : JSVal) :
      Step st (ClientManager.addUserToChannel st channel uid).2
  | removeUserFromChannelVerbStep (st : ClientManagerState) (channel : String) (uid : JSVal) :
      Step st (ClientManager.removeUserFromChannel st channel uid).2
  | addChannelVerbStep (st : ClientManagerState) (channel : String) :
      Step st (ClientManager.addChannel st channel).2
  | removeChannelVerbStep (st : ClientManagerState) (channel : String) :
      Step st (ClientManager.removeChannel st channel).2
  | addAuthTokenToChannelVerbStep (st : ClientManagerState) (channel authToken : String) :
      Step st (ClientManager.addAuthTokenToChannel st channel authToken).2
  | removeAuthTokenFromChannelVerbStep (st : ClientManagerState)
      (channel authToken : String) :
      Step st (ClientManager.removeAuthTokenFromChannel st channel authToken).2
  | setContentTokenVerbStep (st : ClientManagerState) (channel token : String)
      (value : TokenPayload) :
      Step st (ClientManager.setContentToken st channel token value)

/-- States reachable from the freshly constructed manager through `Step`. -/
inductive Reachable : ClientManagerState → Prop where
  | initial : Reachable initialState
  | next {st st2 : ClientManagerState} : Reachable st → Step st st2 → Reachable st2

/-- The step relation of claim C7 as stated: `Step` extended with the
manager's setUserPresenceList operation. -/
inductive StepFull : ClientManagerState → ClientManagerState → Prop where
  | base {st st2 : ClientManagerState} : Step st st2 → StepFull st st2
  | setUserPresenceListStep (st : ClientManagerState) (uid : Nat) (uidList : List Nat) :
      StepFull st (ClientManager.setUserPresenceList st uid uidList).2

/-- Reachability through the full operation set of claim C7 as stated. -/
inductive ReachableFull : ClientManagerState → Prop where
  | initial : ReachableFull initialState
  | next {st st2 : ClientManagerState} : ReachableFull st → StepFull st st2 → ReachableFull st2

/-- The state reached by the setUserPresenceList operation on a fresh
manager, with uid 5 and an empty observer list. -/
def presenceListBadState : ClientManagerState :=
  (ClientManager.setUserPresenceList initialState 5 []).2

/-- A backend response authorizing an anonymous session (uid 0). -/
def anonAuthBody : AuthData :=
  { authToken := "t0", clientId := "s0", uid := 0,
    nodejsValidAuthToken := some (.jbool true) }

/-- The state after an anonymous socket connects and authenticates. -/
def anonAuthState : ClientManagerState :=
  (ClientManager.authenticateResponseHandler (ClientManager.addSocket initialState "s0")
    "s0" false false 200 (some anonAuthBody)).state

/-- A backend response authorizing uid 7 on socket s1. -/
def authBodySeven : AuthData :=
  { authToken := "t7", clientId := "s1", uid := 7,
    nodejsValidAuthToken := some (.jbool true) }

/-- The state after socket s1 connects and authenticates as uid 7. -/
def reachDemoState : ClientManagerState :=
  (ClientManager.authenticateResponseHandler (ClientManager.addSocket initialState "s1")
    "s1" true false 200 (some authBodySeven)).state

namespace Backend

lemma lor_eq_zero_iff (m n : Nat) : m ||| n = 0 ↔ m = 0 ∧ n = 0 := by
  constructor
  · intro h
    constructor
    · apply Nat.zero_of_testBit_eq_false
      intro i
      have := congrArg (fun x => Nat.testBit x i) h
      simp only [Nat.testBit_lor, Nat.zero_testBit, Bool.or_eq_false_iff] at this
      exact this.1
    · apply Nat.zero_of_testBit_eq_false
      intro i
      have := congrArg (fun x => Nat.testBit x i) h
      simp only [Nat.testBit_lor, Nat.zero_testBit, Bool.or_eq_false_iff] at this
      exact this.2
  · rintro ⟨rfl, rfl⟩
    rfl

lemma foldl_lor_eq_zero (f : Nat → Nat) (l : List Nat) (a : Nat) :
    (l.foldl (fun m i => m ||| f i) a = 0) ↔ (a = 0 ∧ ∀ i ∈ l, f i = 0) := by
  induction l generalizing a with
  | nil => simp
  | cons x xs ih =>
      simp only [List.foldl_cons, ih, List.mem_cons]
      constructor
      · rintro ⟨h0, hall⟩
        rcases (lor_eq_zero_iff _ _).mp h0 with ⟨ha, hx⟩
        exact ⟨ha, fun i hi => hi.elim (fun h => h ▸ hx) (hall i)⟩
      · rintro ⟨ha, hall⟩
        exact ⟨(lor_eq_zero_iff _ _).mpr ⟨ha, hall x (Or.inl rfl)⟩,
          fun i hi => hall i (Or.inr hi)⟩

lemma serviceKeyMismatch_eq_zero (configuredKey presentedKey : List Nat) :
    serviceKeyMismatch configuredKey presentedKey = 0 ↔
      ∀ i < presentedKey.length, presentedKey.getD i 0 = configuredKey.getD i 0 := by
  unfold serviceKeyMismatch
  rw [foldl_lor_eq_zero]
  simp only [true_and, List.mem_range, Nat.xor_eq_zero]

lemma eq_of_len_eq_of_mismatch_eq_zero {configuredKey presentedKey : List Nat}
    (hlen : presentedKey.length = configuredKey.length)
    (hmis : serviceKeyMismatch configuredKey presentedKey = 0) :
    presentedKey = configuredKey := by
  rw [serviceKeyMismatch_eq_zero] at hmis
  apply List.ext_getElem hlen
  intro i h1 h2
  have := hmis i h1
  rwa [List.getD_eq_getElem _ _ h1, List.getD_eq_getElem _ _ h2] at this

/-- C1: `checkServiceKey` accepts exactly when no service key is configured
or the presented key equals the configured key; with a key configured, every
wrong-length or mismatched presentation is rejected. -/
theorem checkServiceKey_iff (configuredKey presentedKey : List Nat) :
    checkServiceKey configuredKey presentedKey = true ↔
      (configuredKey = [] ∨ presentedKey = configuredKey) := by
  unfold checkServiceKey
  by_cases hc : configuredKey.isEmpty
  · simp [hc, List.isEmpty_iff.mp hc]
  · have hcne : configuredKey ≠ [] := fun h => hc (by simp [h])
    rw [if_neg hc]
    constructor
    · intro h
      by_cases hcase : presentedKey.length ≠ configuredKey.length ∨
          serviceKeyMismatch configuredKey presentedKey ≠ 0
      · rw [if_pos hcase] at h
        exact absurd h (by simp)
      · push_neg at hcase
        exact Or.inr (eq_of_len_eq_of_mismatch_eq_zero hcase.1 hcase.2)
    · rintro (h | h)
      · exact absurd h hcne
      · subst h
        have hnot : ¬(presentedKey.length ≠ presentedKey.length ∨
            serviceKeyMismatch presentedKey presentedKey ≠ 0) := by
          push_neg
          exact ⟨rfl, (serviceKeyMismatch_eq_zero _ _).mpr (fun i _ => rfl)⟩
        rw [if_neg hnot]

end Backend

section MapLemmas

variable {κ α : Type} [DecidableEq κ]

lemma mapGet_cons (p : κ × α) (l : List (κ × α)) (k : κ) :
    mapGet (p :: l) k = if p.1 = k then some p.2 else mapGet l k := rfl

lemma mapGet_mapDel_self (l : List (κ × α)) (k : κ) : mapGet (mapDel l k) k = none := by
  induction l with
  | nil => rfl
  | cons p rest ih =>
      unfold mapDel at ih ⊢
      rw [List.filter_cons]
      by_cases hp : p.1 = k
      · rw [if_neg (by simp [hp])]
        exact ih
      · rw [if_pos (by simp [hp]), mapGet_cons, if_neg hp]
        exact ih

lemma mapGet_mapDel_ne (l : List (κ × α)) (k k2 : κ) (h : k2 ≠ k) :
    mapGet (mapDel l k) k2 = mapGet l k2 := by
  induction l with
  | nil => rfl
  | cons p rest ih =>
      unfold mapDel at ih ⊢
      rw [List.filter_cons]
      by_cases hp : p.1 = k
      · rw [if_neg (by simp [hp]), mapGet_cons,
          if_neg (show ¬ p.1 = k2 by rw [hp]; exact fun hh => h hh.symm)]
        exact ih
      · rw [if_pos (by simp [hp]), mapGet_cons, mapGet_cons]
        by_cases hk2 : p.1 = k2
        · rw [if_pos hk2, if_pos hk2]
        · rw [if_neg hk2, if_neg hk2]
          exact ih

lemma mapSet_eq_cons_mapDel (l : List (κ × α)) (k : κ) (v : α) :
    mapSet l k v = (k, v) :: mapDel l k := rfl

lemma mapGet_mapSet_self (l : List (κ × α)) (k : κ) (v : α) :
    mapGet (mapSet l k v) k = some v := by
  simp [mapSet, mapGet]

lemma mapGet_mapSet_ne (l : List (κ × α)) (k k2 : κ) (v : α) (h : k2 ≠ k) :
    mapGet (mapSet l k v) k2 = mapGet l k2 := by
  rw [mapSet_eq_cons_mapDel, mapGet_cons,
    if_neg (show ¬ k = k2 from fun hh => h hh.symm)]
  exact mapGet_mapDel_ne l k k2 h

lemma mapGet_eq_none_iff (l : List (κ × α)) (k : κ) :
    mapGet l k = none ↔ ∀ p ∈ l, p.1 ≠ k := by
  induction l with
  | nil => simp [mapGet]
  | cons p rest ih =>
      by_cases h : p.1 = k
      · simp [mapGet_cons, h]
      · simp [mapGet_cons, h, ih]

lemma mem_of_mapGet_eq_some {l : List (κ × α)} {k : κ} {v : α}
    (h : mapGet l k = some v) : (k, v) ∈ l := by
  induction l with
  | nil => simp [mapGet] at h
  | cons p rest ih =>
      rw [mapGet_cons] at h
      by_cases hp : p.1 = k
      · rw [if_pos hp] at h
        injection h with h2
        subst hp
        subst h2
        cases p
        exact List.mem_cons_self _ _
      · rw [if_neg hp] at h
        exact List.mem_cons_of_mem _ (ih h)

lemma mapDel_eq_self_of_get_none {l : List (κ × α)} {k : κ}
    (h : mapGet l k = none) : mapDel l k = l := by
  rw [mapGet_eq_none_iff] at h
  exact List.filter_eq_self.mpr (fun p hp => by simpa using h p hp)

lemma mapGet_eq_some_of_mem_nodup {l : List (κ × α)} {k : κ} {v : α}
    (hnodup : (l.map Prod.fst).Nodup) (hmem : (k, v) ∈ l) :
    mapGet l k = some v := by
  induction l with
  | nil => simp at hmem
  | cons p rest ih =>
      simp only [List.map_cons, List.nodup_cons] at hnodup
      rcases List.mem_cons.mp hmem with heq | hmem2
      · subst heq
        simp [mapGet_cons]
      · have hne : p.1 ≠ k := by
          intro hk
          exact hnodup.1 (hk ▸ (List.mem_map.mpr ⟨(k, v), hmem2, rfl⟩))
        rw [mapGet_cons, if_neg hne]
        exact ih hnodup.2 hmem2

lemma keys_nodup_mapDel (l : List (κ × α)) (k : κ)
    (h : (l.map Prod.fst).Nodup) : ((mapDel l k).map Prod.fst).Nodup := by
  unfold mapDel
  exact List.Nodup.sublist (List.Sublist.map Prod.fst (List.filter_sublist l)) h

lemma keys_nodup_mapSet (l : List (κ × α)) (k : κ) (v : α)
    (h : (l.map Prod.fst).Nodup) : ((mapSet l k v).map Prod.fst).Nodup := by
  rw [mapSet_eq_cons_mapDel, List.map_cons, List.nodup_cons]
  refine ⟨fun hmem => ?_, keys_nodup_mapDel l k h⟩
  rcases List.mem_map.mp hmem with ⟨p, hp, hpk⟩
  have := List.of_mem_filter hp
  simp [hpk] at this

end MapLemmas

namespace ClientManager

/-- C9: immediately after addChannel the channel checks as present, and
immediately after removeChannel it checks as absent, in every state. -/
theorem addChannel_removeChannel_checkChannel (st : ClientManagerState) (channel : String) :
    checkChannel (addChannel st channel).2 channel = true ∧
    checkChannel (removeChannel st channel).2 channel = false := by
  constructor
  · unfold addChannel checkChannel
    by_cases h : mapHas st.channels channel = true
    · simp [h]
    · simp only [h]
      simp [mapHas, mapGet_mapSet_self]
  · unfold removeChannel checkChannel
    by_cases h : mapHas st.channels channel = true
    · simp only [h, if_true]
      simp [mapHas, mapGet_mapDel_self]
    · simp only [h, if_false]
      simpa using h

end ClientManager

namespace Routes

/-- C10: every request matched by the user/presence-list route binds the
path parameters `uid` and `uidList`; the handler dereferences the absent
key `uidlist`, so it throws before any validation or store and
`setUserPresenceList` is never reached from this route. -/
theorem setUserPresenceListRoute_throws (st : ClientManagerState)
    (uidValue uidListValue : String) :
    setUserPresenceListRoute st [("uid", uidValue), ("uidList", uidListValue)] =
      Except.error RouteError.typeError := rfl

end Routes

namespace ClientManager

/-- C3: a client-to-channel-message event is emitted exactly for an
authenticated socket sending a typed message naming a client-writable
channel it belongs to; a client-to-client-message exactly for an
authenticated socket sending a typed channel-less message while the global
setting allows it; and nothing else is ever emitted. -/
theorem processMessage_iff (st : ClientManagerState) (clientsCanWriteToClients : Bool)
    (socketId : String) (message : ClientMessage) :
    ((processMessage st clientsCanWriteToClients socketId message =
        some (.toChannelMessage socketId message)) ↔
      (mapHas st.sockets socketId = true ∧ message.hasTypeField = true ∧
        ∃ c, message.channel = some c ∧ channelIsClientWritable st c = true ∧
          clientIsInChannel st socketId c = true)) ∧
    ((processMessage st clientsCanWriteToClients socketId message =
        some (.toClientMessage socketId message)) ↔
      (mapHas st.sockets socketId = true ∧ message.hasTypeField = true ∧
        message.channel = none ∧ clientsCanWriteToClients = true)) ∧
    (∀ e, processMessage st clientsCanWriteToClients socketId message = some e →
      e = .toChannelMessage socketId message ∨ e = .toClientMessage socketId message) := by
  unfold processMessage
  by_cases h1 : mapHas st.sockets socketId = true ∧ message.hasTypeField = true
  · rw [if_pos h1]
    rcases hch : message.channel with _ | c
    · by_cases h2 : clientsCanWriteToClients = true
      · subst h2
        simp [h1.1, h1.2]
      · simp only [Bool.not_eq_true] at h2
        subst h2
        simp [h1.1, h1.2]
    · by_cases hw : channelIsClientWritable st c = true
      · by_cases hm : clientIsInChannel st socketId c = true
        · simp [h1.1, h1.2, hw, hm]
        · simp [h1.1, h1.2, hw, hm]
      · simp [h1.1, h1.2, hw]
  · rw [if_neg h1]
    exact ⟨⟨fun h => absurd h (by simp), fun hh => absurd ⟨hh.1, hh.2.1⟩ h1⟩,
      ⟨fun h => absurd h (by simp), fun hh => absurd ⟨hh.1, hh.2.1⟩ h1⟩,
      fun e he => absurd he (by simp)⟩

/-- C2 (amended): processing a backend authentication response disconnects
the socket, removes it from preAuth and skips the ack exactly when the
response has a transport error, status 404 or 301, a non-JSON body, a
truthy error field, or a falsy nodejsValidAuthToken; otherwise the
connection is set up, the identity is stored under its authToken, and the
ack fires exactly when provided. -/
theorem authenticateResponseHandler_characterization (st : ClientManagerState)
    (msgClientId : String) (ackProvided error : Bool) (statusCode : Nat)
    (body : Option AuthData) :
    authenticateResponseHandler st msgClientId ackProvided error statusCode body =
      (if authRejectCondition error statusCode body then authRejectOutcome st msgClientId
       else authSuccessOutcome st ackProvided (body.getD {})) := by
  unfold authenticateResponseHandler authenticateClientCallback authRejectCondition
    authRejectOutcome authSuccessOutcome
  by_cases he : error = true
  · subst he
    simp
  · simp only [Bool.not_eq_true] at he
    subst he
    by_cases h404 : statusCode = 404
    · subst h404
      simp
    · by_cases h301 : statusCode = 301
      · subst h301
        simp [h404]
      · rcases body with _ | a
        · simp [h404, h301]
        · by_cases herr : jsTruthyOpt a.error = true
          · simp [h404, h301, herr]
          · simp only [Bool.not_eq_true] at herr
            by_cases hvalid : jsTruthyOpt a.nodejsValidAuthToken = true
            · have : jsTruthy (a.nodejsValidAuthToken.getD .jnull) = true := by
                rcases hv : a.nodejsValidAuthToken with _ | v
                · rw [hv] at hvalid; simp [jsTruthyOpt] at hvalid
                · rw [hv] at hvalid; simpa [jsTruthyOpt] using hvalid
              simp [h404, h301, herr, hvalid, this]
            · have : jsTruthy (a.nodejsValidAuthToken.getD .jnull) = false := by
                rcases hv : a.nodejsValidAuthToken with _ | v
                · simp [jsTruthy]
                · rw [hv] at hvalid
                  simpa [jsTruthyOpt] using hvalid
              simp [h404, h301, herr, hvalid, this]

/-- Witness: the characterization applied to the reject and accept shape
at concrete inputs. -/
theorem authenticateResponseHandler_characterization_witness :
    authenticateResponseHandler initialState "c0" true true 200 none =
      (if authRejectCondition true 200 none then authRejectOutcome initialState "c0"
       else authSuccessOutcome initialState true (Option.getD none {})) :=
  authenticateResponseHandler_characterization initialState "c0" true true 200 none

/-- Counterexample to C2 as stated: on a body that contains an error field
(value false) the spec condition demands disconnect without ack, but the
code acks and does not disconnect; likewise for nodejsValidAuthToken 2,
which is not loosely equal to true yet truthy. -/
theorem authenticateResponseHandler_claim_false :
    (specRejectCondition false 200 (some authBodyErrorFalse) = true ∧
      (authenticateResponseHandler initialState "c1" true false 200
        (some authBodyErrorFalse)).ackInvoked = true ∧
      (authenticateResponseHandler initialState "c1" true false 200
        (some authBodyErrorFalse)).disconnected = false) ∧
    (specRejectCondition false 200 (some authBodyTokenTwo) = true ∧
      (authenticateResponseHandler initialState "c2" true false 200
        (some authBodyTokenTwo)).ackInvoked = true ∧
      (authenticateResponseHandler initialState "c2" true false 200
        (some authBodyTokenTwo)).disconnected = false) := by decide

/-- C8: when the presence grace timer for a uid fires while some
authenticated socket with that uid exists (a reconnect happened inside the
grace window), the only change is that the timer disarms: the uid stays in
onlineUsers, no backend message is posted and no presence notification is
sent. -/
theorem presenceTimerFire_no_offline (st : ClientManagerState) (uid : Nat)
    (_harmed : uid ∈ st.presenceTimeoutIds)
    (hsock : ∃ p ∈ st.sockets, p.2.uid = uid) :
    presenceTimerFire st uid =
      ({ st with presenceTimeoutIds := st.presenceTimeoutIds.filter (· ≠ uid) }, []) := by
  unfold presenceTimerFire checkOnlineStatus
  rw [if_neg]
  intro hempty
  obtain ⟨p, hp, hpu⟩ := hsock
  have hmem : p ∈ ({ st with
      presenceTimeoutIds := st.presenceTimeoutIds.filter (· ≠ uid) } :
        ClientManagerState).sockets := hp
  have : p.1 ∈ getNodejsSessionIdsFromUid
      { st with presenceTimeoutIds := st.presenceTimeoutIds.filter (· ≠ uid) } (.jnum uid) := by
    unfold getNodejsSessionIdsFromUid
    exact List.mem_map.mpr ⟨p, List.mem_filter.mpr ⟨hmem, by simp [jsLooseEqNum, hpu]⟩, rfl⟩
  rw [hempty] at this
  exact absurd this (List.not_mem_nil _)

/-- Witness for the grace-timer theorem at the reconnect state. -/
theorem presenceTimerFire_no_offline_witness :
    presenceTimerFire presenceDemoState 7 =
      ({ presenceDemoState with
          presenceTimeoutIds := presenceDemoState.presenceTimeoutIds.filter (· ≠ 7) }, []) :=
  presenceTimerFire_no_offline presenceDemoState 7 (by decide)
    ⟨("s2", { authToken := "tok", uid := 7 }), by decide, rfl⟩

/-- C4: the kickUser admin verb receives the uid as the URL path string;
`kickUser` compares it with `===` against the numeric `uid` fields, which
never matches, so the verb reports success while removing neither the
identity nor the socket nor the channel membership. -/
theorem routeKickUser_removes_nothing :
    Routes.routeKickUser kickDemoState (some "666") =
      (kickDemoState, Routes.RouteReply.success) := by decide

/-- C5: the logoutUser admin verb calls `kickUser` with the authToken
instead of `logoutUser`; the strict comparison of the token string against
numeric uids matches nothing, so the identity stays stored, no socket
cleanup runs, and the verb still replies success. -/
theorem routeLogoutUser_leaves_identity :
    Routes.routeLogoutUser logoutDemoState (some "tok1") =
      (logoutDemoState, Routes.RouteReply.success) ∧
    mapHas logoutDemoState.authenticatedClients "tok1" = true := by decide

/-- C6: removeUserFromChannel reports success for the existing channel but
leaves the channel inside the identity's channel list, because its guard
asks the `authenticateClient` method's function object whether the
authToken is one of its own properties, which holds for no real token. -/
theorem removeUserFromChannel_keeps_identity_channels :
    (removeUserFromChannel removeDemoState "c" (.jnum 7)).1 = true ∧
    (mapGet (removeUserFromChannel removeDemoState "c" (.jnum 7)).2.authenticatedClients
      "token_1").map AuthData.channels = some ["c"] := by decide

end ClientManager

section Preservation

open ClientManager

lemma wellFormed_of_fields_eq {st1 st2 : ClientManagerState}
    (h1 : st2.preAuthSockets = st1.preAuthSockets)
    (h2 : st2.sockets = st1.sockets)
    (h3 : st2.onlineUsers = st1.onlineUsers)
    (h4 : st2.presenceTimeoutIds = st1.presenceTimeoutIds)
    (h : WellFormedState st1) : WellFormedState st2 := by
  unfold WellFormedState at h ⊢
  rw [h1, h2, h3, h4]
  exact h

lemma wellFormed_initial : WellFormedState initialState := by
  refine ⟨by simp [initialState], by simp [initialState], fun u hu => ?_⟩
  simp [initialState, mapHas, mapGet]

lemma wellFormed_filter_preAuth (st : ClientManagerState) (f : String → Bool)
    (hwf : WellFormedState st) :
    WellFormedState { st with preAuthSockets := st.preAuthSockets.filter f } :=
  ⟨fun id2 h2 => hwf.1 id2 (List.mem_of_mem_filter h2), hwf.2.1, hwf.2.2⟩

lemma wellFormed_addSocket (st : ClientManagerState) (id : String)
    (hfresh : mapGet st.sockets id = none) (hwf : WellFormedState st) :
    WellFormedState (addSocket st id) := by
  refine ⟨?_, hwf.2.1, hwf.2.2⟩
  intro id2 h2
  rcases List.mem_cons.mp h2 with rfl | h3
  · exact hfresh
  · exact hwf.1 id2 (List.mem_of_mem_filter h3)

lemma foldl_channels_update_frame {β : Type}
    (f : List (String × ChannelData) → β → List (String × ChannelData))
    (l : List β) (s0 : ClientManagerState) :
    (l.foldl (fun s b => { s with channels := f s.channels b }) s0).preAuthSockets
        = s0.preAuthSockets ∧
    (l.foldl (fun s b => { s with channels := f s.channels b }) s0).sockets = s0.sockets ∧
    (l.foldl (fun s b => { s with channels := f s.channels b }) s0).onlineUsers
        = s0.onlineUsers ∧
    (l.foldl (fun s b => { s with channels := f s.channels b }) s0).presenceTimeoutIds
        = s0.presenceTimeoutIds ∧
    (l.foldl (fun s b => { s with channels := f s.channels b }) s0).authenticatedClients
        = s0.authenticatedClients := by
  induction l generalizing s0 with
  | nil => exact ⟨rfl, rfl, rfl, rfl, rfl⟩
  | cons b rest ih => exact ih _

lemma redeemContentToken_frame (sessionId : String) (s : ClientManagerState)
    (p : String × String) :
    (redeemContentToken sessionId s p).preAuthSockets = s.preAuthSockets ∧
    (redeemContentToken sessionId s p).sockets = s.sockets ∧
    (redeemContentToken sessionId s p).onlineUsers = s.onlineUsers ∧
    (redeemContentToken sessionId s p).presenceTimeoutIds = s.presenceTimeoutIds ∧
    (redeemContentToken sessionId s p).authenticatedClients = s.authenticatedClients := by
  unfold redeemContentToken
  by_cases h : mapHas s.tokenChannels p.1 = true
  · simp only [h, if_true]
    rcases hget : mapGet ((mapGet s.tokenChannels p.1).getD {}).tokens p.2 with _ | payload
    · simp [hget]
    · simp [hget]
  · simp only [h, if_false, Bool.false_eq_true]
    rcases hget : mapGet
        ((mapGet (mapSet s.tokenChannels p.1 {}) p.1).getD {}).tokens p.2 with _ | payload
    · simp [hget]
    · simp [hget]

lemma foldl_redeem_frame (sessionId : String) (l : List (String × String))
    (s0 : ClientManagerState) :
    (l.foldl (redeemContentToken sessionId) s0).preAuthSockets = s0.preAuthSockets ∧
    (l.foldl (redeemContentToken sessionId) s0).sockets = s0.sockets ∧
    (l.foldl (redeemContentToken sessionId) s0).onlineUsers = s0.onlineUsers ∧
    (l.foldl (redeemContentToken sessionId) s0).presenceTimeoutIds
        = s0.presenceTimeoutIds := by
  induction l generalizing s0 with
  | nil => exact ⟨rfl, rfl, rfl, rfl⟩
  | cons p rest ih =>
      rw [List.foldl_cons]
      obtain ⟨f1, f2, f3, f4, -⟩ := redeemContentToken_frame sessionId s0 p
      obtain ⟨g1, g2, g3, g4⟩ := ih (redeemContentToken sessionId s0 p)
      exact ⟨g1.trans f1, g2.trans f2, g3.trans f3, g4.trans f4⟩

lemma mapSet_eq_cons_of_get_none {κ α : Type} [DecidableEq κ]
    {l : List (κ × α)} {k : κ} (v : α) (h : mapGet l k = none) :
    mapSet l k v = (k, v) :: l := by
  rw [mapSet_eq_cons_mapDel, mapDel_eq_self_of_get_none h]

lemma mapHas_mapSet_self {κ α : Type} [DecidableEq κ] (l : List (κ × α)) (k : κ) (v : α) :
    mapHas (mapSet l k v) k = true := by
  simp [mapHas, mapGet_mapSet_self]

lemma mapHas_mapSet_ne {κ α : Type} [DecidableEq κ] (l : List (κ × α)) (k k2 : κ) (v : α)
    (h : k2 ≠ k) : mapHas (mapSet l k v) k2 = mapHas l k2 := by
  simp [mapHas, mapGet_mapSet_ne _ _ _ _ h]

lemma exists_uid_mapDel_iff {l : List (String × SocketData)} {id : String}
    {sd : SocketData} {u : Nat} (hnodup : (l.map Prod.fst).Nodup)
    (hget : mapGet l id = some sd) (hne : sd.uid ≠ u) :
    (∃ p ∈ mapDel l id, p.2.uid = u) ↔ (∃ p ∈ l, p.2.uid = u) := by
  constructor
  · rintro ⟨p, hp, hpu⟩
    exact ⟨p, List.mem_of_mem_filter hp, hpu⟩
  · rintro ⟨p, hp, hpu⟩
    refine ⟨p, List.mem_filter.mpr ⟨hp, ?_⟩, hpu⟩
    simp only [decide_eq_true_eq]
    intro hpid
    have : mapGet l id = some p.2 := by
      rw [← hpid]
      exact mapGet_eq_some_of_mem_nodup hnodup (by simpa using hp)
    rw [hget] at this
    injection this with h2
    exact hne (by rw [← h2] at hpu; exact hpu)

lemma sessions_empty_iff (st : ClientManagerState) (u : Nat) :
    getNodejsSessionIdsFromUid st (.jnum u) = [] ↔ ∀ p ∈ st.sockets, p.2.uid ≠ u := by
  unfold getNodejsSessionIdsFromUid
  rw [List.map_eq_nil_iff, List.filter_eq_nil_iff]
  simp [jsLooseEqNum]

lemma markUserOnline_state (st : ClientManagerState) (a : AuthData) :
    (markUserOnline st a).1 =
      (if a.uid ≠ 0 then
        { st with onlineUsers := mapSet st.onlineUsers a.uid a.presenceUids }
      else st) := by
  unfold markUserOnline
  by_cases h : a.uid ≠ 0
  · rw [if_pos h, if_pos h]
    by_cases hs : ¬ mapHas st.onlineUsers a.uid = true
    · rw [if_pos hs]
    · rw [if_neg hs]
  · rw [if_neg h, if_neg h]

lemma foldl_addSession_var_channel_frame (l : List String) (sid : String)
    (s0 : ClientManagerState) :
    (l.foldl (fun s ch => { s with channels := addSessionToChannel s.channels ch sid })
        s0).preAuthSockets = s0.preAuthSockets ∧
    (l.foldl (fun s ch => { s with channels := addSessionToChannel s.channels ch sid })
        s0).sockets = s0.sockets ∧
    (l.foldl (fun s ch => { s with channels := addSessionToChannel s.channels ch sid })
        s0).onlineUsers = s0.onlineUsers ∧
    (l.foldl (fun s ch => { s with channels := addSessionToChannel s.channels ch sid })
        s0).presenceTimeoutIds = s0.presenceTimeoutIds ∧
    (l.foldl (fun s ch => { s with channels := addSessionToChannel s.channels ch sid })
        s0).authenticatedClients = s0.authenticatedClients :=
  foldl_channels_update_frame (fun c ch => addSessionToChannel c ch sid) l s0

lemma foldl_addSession_var_sid_frame (ids : List String) (channel : String)
    (s0 : ClientManagerState) :
    (ids.foldl (fun s sid => { s with channels := addSessionToChannel s.channels channel sid })
        s0).preAuthSockets = s0.preAuthSockets ∧
    (ids.foldl (fun s sid => { s with channels := addSessionToChannel s.channels channel sid })
        s0).sockets = s0.sockets ∧
    (ids.foldl (fun s sid => { s with channels := addSessionToChannel s.channels channel sid })
        s0).onlineUsers = s0.onlineUsers ∧
    (ids.foldl (fun s sid => { s with channels := addSessionToChannel s.channels channel sid })
        s0).presenceTimeoutIds = s0.presenceTimeoutIds ∧
    (ids.foldl (fun s sid => { s with channels := addSessionToChannel s.channels channel sid })
        s0).authenticatedClients = s0.authenticatedClients :=
  foldl_channels_update_frame (fun c sid => addSessionToChannel c channel sid) ids s0

lemma setup_fields (st : ClientManagerState) (sid : String) (a : AuthData)
    (cts : List (String × String)) (hpre : sid ∈ st.preAuthSockets) :
    (setupClientConnection st sid a cts).1.preAuthSockets
        = st.preAuthSockets.filter (· ≠ sid) ∧
    (setupClientConnection st sid a cts).1.sockets
        = mapSet st.sockets sid { authToken := a.authToken, uid := a.uid } ∧
    (setupClientConnection st sid a cts).1.onlineUsers
        = (if a.uid ≠ 0 then mapSet st.onlineUsers a.uid a.presenceUids
           else st.onlineUsers) ∧
    (setupClientConnection st sid a cts).1.presenceTimeoutIds = st.presenceTimeoutIds := by
  unfold setupClientConnection
  rw [if_pos hpre]
  refine ⟨?_, ?_, ?_, ?_⟩
  · rw [(foldl_redeem_frame sid cts _).1, markUserOnline_state]
    by_cases h : a.uid ≠ 0
    · rw [if_pos h]
      exact (foldl_addSession_var_channel_frame a.channels sid _).1
    · rw [if_neg h]
      exact (foldl_addSession_var_channel_frame a.channels sid _).1
  · rw [(foldl_redeem_frame sid cts _).2.1, markUserOnline_state]
    by_cases h : a.uid ≠ 0
    · rw [if_pos h]
      exact (foldl_addSession_var_channel_frame a.channels sid _).2.1
    · rw [if_neg h]
      exact (foldl_addSession_var_channel_frame a.channels sid _).2.1
  · rw [(foldl_redeem_frame sid cts _).2.2.1, markUserOnline_state]
    by_cases h : a.uid ≠ 0
    · rw [if_pos h, if_pos h]
      show mapSet _ a.uid a.presenceUids = _
      rw [(foldl_addSession_var_channel_frame a.channels sid _).2.2.1]
    · rw [if_neg h, if_neg h]
      exact (foldl_addSession_var_channel_frame a.channels sid _).2.2.1
  · rw [(foldl_redeem_frame sid cts _).2.2.2, markUserOnline_state]
    by_cases h : a.uid ≠ 0
    · rw [if_pos h]
      exact (foldl_addSession_var_channel_frame a.channels sid _).2.2.2.1
    · rw [if_neg h]
      exact (foldl_addSession_var_channel_frame a.channels sid _).2.2.2.1

lemma wellFormed_setup (st : ClientManagerState) (sid : String) (a : AuthData)
    (cts : List (String × String)) (hwf : WellFormedState st) :
    WellFormedState (setupClientConnection st sid a cts).1 := by
  by_cases hpre : sid ∈ st.preAuthSockets
  case neg =>
    unfold setupClientConnection
    rw [if_neg hpre]
    exact hwf
  case pos =>
    obtain ⟨f1, f2, f3, f4⟩ := setup_fields st sid a cts hpre
    have hsid : mapGet st.sockets sid = none := hwf.1 sid hpre
    refine ⟨?_, ?_, fun u hu => ?_⟩
    · intro id2 h2
      rw [f1] at h2
      rw [f2]
      have hne : id2 ≠ sid := by simpa using List.of_mem_filter h2
      rw [mapGet_mapSet_ne _ _ _ _ hne]
      exact hwf.1 id2 (List.mem_of_mem_filter h2)
    · rw [f2]
      exact keys_nodup_mapSet _ _ _ hwf.2.1
    · rw [f2, f3, f4, mapSet_eq_cons_of_get_none _ hsid, List.exists_mem_cons_iff]
      by_cases huid : a.uid = 0
      · rw [if_neg (by simp [huid])]
        have hne : ¬ (({ authToken := a.authToken, uid := a.uid } : SocketData).uid = u) := by
          simp [huid]
          omega
        simp only [hne, false_or]
        exact hwf.2.2 u hu
      · rw [if_pos huid]
        by_cases hu2 : u = a.uid
        · subst hu2
          rw [mapHas_mapSet_self]
          constructor
          · intro _
            exact Or.inl (Or.inl (by simp))
          · intro _
            rfl
        · rw [mapHas_mapSet_ne _ _ _ _ hu2]
          have hne : ¬ (({ authToken := a.authToken, uid := a.uid } : SocketData).uid = u) :=
            fun hh => hu2 (by simpa using hh.symm)
          simp only [hne, false_or]
          exact hwf.2.2 u hu

lemma wellFormed_authCallback (st : ClientManagerState) (error : Bool)
    (statusCode : Nat) (body : Option AuthData) (hwf : WellFormedState st) :
    WellFormedState (authenticateClientCallback st error statusCode body).2.1 := by
  unfold authenticateClientCallback
  repeat' split
  any_goals exact hwf
  rename_i a _ _
  have hsetup := wellFormed_setup st a.clientId a a.contentTokens hwf
  exact ⟨hsetup.1, hsetup.2.1, hsetup.2.2⟩

lemma wellFormed_authHandler (st : ClientManagerState) (msgClientId : String)
    (ackProvided error : Bool) (statusCode : Nat) (body : Option AuthData)
    (hwf : WellFormedState st) :
    WellFormedState (authenticateResponseHandler st msgClientId ackProvided
      error statusCode body).state := by
  unfold authenticateResponseHandler
  by_cases h : (authenticateClientCallback st error statusCode body).1 = true
  · simp only [h, if_pos]
    exact wellFormed_authCallback st error statusCode body hwf
  · rw [if_neg h]
    exact wellFormed_filter_preAuth _ _ (wellFormed_authCallback st error statusCode body hwf)

lemma wellFormed_cleanup (st : ClientManagerState) (id : String)
    (hwf : WellFormedState st) : WellFormedState (cleanupSocket st id) := by
  unfold cleanupSocket
  by_cases hpre : id ∈ st.preAuthSockets
  · rw [if_pos hpre]
    exact wellFormed_filter_preAuth st _ hwf
  · rw [if_neg hpre]
    refine ⟨fun id2 h2 => ?_, keys_nodup_mapDel _ _ hwf.2.1, fun u hu => ?_⟩
    · show mapGet (mapDel st.sockets id) id2 = none
      by_cases hid : id2 = id
      · subst hid
        exact mapGet_mapDel_self _ _
      · rw [mapGet_mapDel_ne _ _ _ hid]
        exact hwf.1 id2 h2
    · show mapHas st.onlineUsers u = true ↔
        ((∃ p ∈ mapDel st.sockets id, p.2.uid = u) ∨ u ∈
          (if ((mapGet st.sockets id).map SocketData.uid).getD 0 ≠ 0 then
            ((mapGet st.sockets id).map SocketData.uid).getD 0 ::
              st.presenceTimeoutIds.filter
                (· ≠ ((mapGet st.sockets id).map SocketData.uid).getD 0)
          else st.presenceTimeoutIds))
      rcases hget : mapGet st.sockets id with _ | sd
      · have hdel : mapDel st.sockets id = st.sockets := mapDel_eq_self_of_get_none hget
        rw [hdel]
        simp only [Option.map_none', Option.getD_none, ne_eq, not_true_eq_false,
          if_false, not_not]
        exact hwf.2.2 u hu
      · simp only [Option.map_some', Option.getD_some]
        by_cases huid : sd.uid = 0
        · rw [if_neg (by simp [huid])]
          rw [exists_uid_mapDel_iff hwf.2.1 hget (by omega)]
          exact hwf.2.2 u hu
        · rw [if_pos huid]
          by_cases hu2 : u = sd.uid
          · subst hu2
            have hsock : ∃ p ∈ st.sockets, p.2.uid = sd.uid :=
              ⟨(id, sd), mem_of_mapGet_eq_some hget, rfl⟩
            have hon : mapHas st.onlineUsers sd.uid = true :=
              (hwf.2.2 sd.uid hu).mpr (Or.inl hsock)
            rw [hon]
            simp only [true_iff]
            exact Or.inr (List.mem_cons_self _ _)
          · rw [exists_uid_mapDel_iff hwf.2.1 hget (fun hh => hu2 hh.symm)]
            have htim : (u ∈ sd.uid :: st.presenceTimeoutIds.filter (· ≠ sd.uid)) ↔
                u ∈ st.presenceTimeoutIds := by
              simp only [List.mem_cons, List.mem_filter, decide_eq_true_eq]
              constructor
              · rintro (h | h)
                · exact absurd h hu2
                · exact h.1
              · intro h
                exact Or.inr ⟨h, hu2⟩
            rw [htim]
            exact hwf.2.2 u hu

lemma wellFormed_timerFire (st : ClientManagerState) (u0 : Nat)
    (hwf : WellFormedState st) : WellFormedState (presenceTimerFire st u0).1 := by
  unfold presenceTimerFire checkOnlineStatus
  by_cases hemp : getNodejsSessionIdsFromUid
      { st with presenceTimeoutIds := st.presenceTimeoutIds.filter (· ≠ u0) }
      (.jnum u0) = []
  · rw [if_pos hemp]
    unfold setUserOffline
    rw [sessions_empty_iff] at hemp
    refine ⟨fun id2 h2 => hwf.1 id2 h2, hwf.2.1, fun u hu => ?_⟩
    show mapHas (mapDel st.onlineUsers u0) u = true ↔
      ((∃ p ∈ st.sockets, p.2.uid = u) ∨ u ∈ st.presenceTimeoutIds.filter (· ≠ u0))
    by_cases hu2 : u = u0
    · subst hu2
      have h1 : mapHas (mapDel st.onlineUsers u) u = false := by
        simp [mapHas, mapGet_mapDel_self]
      rw [h1]
      simp only [Bool.false_eq_true, false_iff, not_or]
      constructor
      · rintro ⟨p, hp, hpu⟩
        exact hemp p hp hpu
      · intro h
        have := List.of_mem_filter h
        simp at this
    · have h1 : mapHas (mapDel st.onlineUsers u0) u = mapHas st.onlineUsers u := by
        simp [mapHas, mapGet_mapDel_ne _ _ _ hu2]
      rw [h1]
      have htim : (u ∈ st.presenceTimeoutIds.filter (· ≠ u0)) ↔
          u ∈ st.presenceTimeoutIds := by
        simp only [List.mem_filter, decide_eq_true_eq]
        exact ⟨fun h => h.1, fun h => ⟨h, hu2⟩⟩
      rw [htim]
      exact hwf.2.2 u hu
  · rw [if_neg hemp]
    have hx : ∃ p ∈ st.sockets, p.2.uid = u0 := by
      by_contra hx
      apply hemp
      rw [sessions_empty_iff]
      intro p hp hpu
      exact hx ⟨p, hp, hpu⟩
    refine ⟨fun id2 h2 => hwf.1 id2 h2, hwf.2.1, fun u hu => ?_⟩
    show mapHas st.onlineUsers u = true ↔
      ((∃ p ∈ st.sockets, p.2.uid = u) ∨ u ∈ st.presenceTimeoutIds.filter (· ≠ u0))
    by_cases hu2 : u = u0
    · subst hu2
      have hon : mapHas st.onlineUsers u = true := (hwf.2.2 u hu).mpr (Or.inl hx)
      rw [hon]
      simp only [true_iff]
      exact Or.inl hx
    · have htim : (u ∈ st.presenceTimeoutIds.filter (· ≠ u0)) ↔
          u ∈ st.presenceTimeoutIds := by
        simp only [List.mem_filter, decide_eq_true_eq]
        exact ⟨fun h => h.1, fun h => ⟨h, hu2⟩⟩
      rw [htim]
      exact hwf.2.2 u hu

lemma jsStrictEq_jnum_jstr (n : Nat) (s : String) :
    jsStrictEq (.jnum n) (.jstr s) = false := by
  unfold jsStrictEq
  exact decide_eq_false (by simp)

lemma kickUser_jstr_eq (st : ClientManagerState) (s : String) :
    kickUser st (.jstr s) = st := by
  unfold kickUser
  simp only [jsStrictEq_jnum_jstr, Bool.false_eq_true, not_false_iff, decide_True,
    List.filter_true, List.filter_false, List.map_nil, List.foldl_nil]

lemma routeKickUser_state_eq (st : ClientManagerState) (p : Option String) :
    (Routes.routeKickUser st p).1 = st := by
  unfold Routes.routeKickUser
  rcases p with _ | u
  · rfl
  · show (if u ≠ "" then (kickUser st (.jstr u), Routes.RouteReply.success)
        else (st, Routes.RouteReply.failed "missing uid")).1 = st
    by_cases h : u ≠ ""
    · rw [if_pos h]
      exact kickUser_jstr_eq st u
    · rw [if_neg h]

lemma routeLogoutUser_state_eq (st : ClientManagerState) (p : Option String) :
    (Routes.routeLogoutUser st p).1 = st := by
  unfold Routes.routeLogoutUser
  by_cases h : p.getD "" ≠ ""
  · rw [if_pos h]
    exact kickUser_jstr_eq st _
  · rw [if_neg h]

lemma wellFormed_addChannel (st : ClientManagerState) (channel : String)
    (hwf : WellFormedState st) : WellFormedState (addChannel st channel).2 := by
  unfold addChannel
  split
  · exact hwf
  · exact wellFormed_of_fields_eq rfl rfl rfl rfl hwf

lemma wellFormed_removeChannel (st : ClientManagerState) (channel : String)
    (hwf : WellFormedState st) : WellFormedState (removeChannel st channel).2 := by
  unfold removeChannel
  split
  · exact wellFormed_of_fields_eq rfl rfl rfl rfl hwf
  · exact hwf

lemma wellFormed_setContentToken (st : ClientManagerState) (channel token : String)
    (value : TokenPayload) (hwf : WellFormedState st) :
    WellFormedState (setContentToken st channel token value) :=
  wellFormed_of_fields_eq rfl rfl rfl rfl hwf

lemma wellFormed_addUserToChannel (st : ClientManagerState) (channel : String)
    (uid : JSVal) (hwf : WellFormedState st) :
    WellFormedState (addUserToChannel st channel uid).2 := by
  unfold addUserToChannel
  dsimp only
  split <;> split
  all_goals first
    | exact hwf
    | exact wellFormed_of_fields_eq rfl rfl rfl rfl hwf
    | exact wellFormed_of_fields_eq (foldl_addSession_var_sid_frame _ channel _).1
        (foldl_addSession_var_sid_frame _ channel _).2.1
        (foldl_addSession_var_sid_frame _ channel _).2.2.1
        (foldl_addSession_var_sid_frame _ channel _).2.2.2.1 hwf

lemma wellFormed_removeUserFromChannel (st : ClientManagerState) (channel : String)
    (uid : JSVal) (hwf : WellFormedState st) :
    WellFormedState (removeUserFromChannel st channel uid).2 := by
  unfold removeUserFromChannel
  split
  · exact wellFormed_of_fields_eq rfl rfl rfl rfl hwf
  · exact hwf

lemma wellFormed_addAuthTokenToChannel (st : ClientManagerState)
    (channel authToken : String) (hwf : WellFormedState st) :
    WellFormedState (addAuthTokenToChannel st channel authToken).2 := by
  unfold addAuthTokenToChannel
  split
  · exact hwf
  · dsimp only
    split <;> split
    all_goals first
      | exact hwf
      | exact wellFormed_of_fields_eq rfl rfl rfl rfl hwf
      | exact wellFormed_of_fields_eq (foldl_addSession_var_sid_frame _ channel _).1
          (foldl_addSession_var_sid_frame _ channel _).2.1
          (foldl_addSession_var_sid_frame _ channel _).2.2.1
          (foldl_addSession_var_sid_frame _ channel _).2.2.2.1 hwf

lemma wellFormed_removeAuthTokenFromChannel (st : ClientManagerState)
    (channel authToken : String) (hwf : WellFormedState st) :
    WellFormedState (removeAuthTokenFromChannel st channel authToken).2 := by
  unfold removeAuthTokenFromChannel
  split
  · exact hwf
  · split
    · exact wellFormed_of_fields_eq rfl rfl rfl rfl hwf
    · exact hwf

lemma step_wellFormed {st st2 : ClientManagerState} (h : Step st st2)
    (hwf : WellFormedState st) : WellFormedState st2 := by
  cases h with
  | addSocketStep id hfresh => exact wellFormed_addSocket st id hfresh hwf
  | authCachedStep sid token cts a hcache => exact wellFormed_setup st sid a cts hwf
  | authResponseStep msgClientId ackProvided error statusCode body =>
      exact wellFormed_authHandler st msgClientId ackProvided error statusCode body hwf
  | disconnectStep id hlive => exact wellFormed_cleanup st id hwf
  | presenceTimerFireStep uid harmed => exact wellFormed_timerFire st uid hwf
  | kickUserVerbStep uidParam =>
      rw [routeKickUser_state_eq]
      exact hwf
  | logoutUserVerbStep tokenParam =>
      rw [routeLogoutUser_state_eq]
      exact hwf
  | addUserToChannelVerbStep channel uid =>
      exact wellFormed_addUserToChannel st channel uid hwf
  | removeUserFromChannelVerbStep channel uid =>
      exact wellFormed_removeUserFromChannel st channel uid hwf
  | addChannelVerbStep channel => exact wellFormed_addChannel st channel hwf
  | removeChannelVerbStep channel => exact wellFormed_removeChannel st channel hwf
  | addAuthTokenToChannelVerbStep channel authToken =>
      exact wellFormed_addAuthTokenToChannel st channel authToken hwf
  | removeAuthTokenFromChannelVerbStep channel authToken =>
      exact wellFormed_removeAuthTokenFromChannel st channel authToken hwf
  | setContentTokenVerbStep channel token value =>
      exact wellFormed_setContentToken st channel token value hwf

lemma reachable_wellFormed {st : ClientManagerState} (h : Reachable st) :
    WellFormedState st := by
  induction h with
  | initial => exact wellFormed_initial
  | next hreach hstep ih => exact step_wellFormed hstep ih

end Preservation

/-- C7 (amended): in every state reachable through socket registration,
authentication, disconnect, grace-timer firing and the admin verbs other
than setUserPresenceList, a non-zero uid is in onlineUsers exactly when
some registered socket carries it or its presence grace timer is armed. -/
theorem onlineUsers_invariant (st : ClientManagerState) (h : Reachable st)
    (u : Nat) (hu : 0 < u) :
    mapHas st.onlineUsers u = true ↔
      ((∃ p ∈ st.sockets, p.2.uid = u) ∨ u ∈ st.presenceTimeoutIds) :=
  (reachable_wellFormed h).2.2 u hu

/-- Witness: the amended invariant evaluated at the state where socket s1
authenticated as uid 7. -/
theorem onlineUsers_invariant_witness :
    mapHas reachDemoState.onlineUsers 7 = true ↔
      ((∃ p ∈ reachDemoState.sockets, p.2.uid = 7) ∨
        7 ∈ reachDemoState.presenceTimeoutIds) :=
  onlineUsers_invariant reachDemoState
    (Reachable.next
      (Reachable.next Reachable.initial (Step.addSocketStep initialState "s1" rfl))
      (Step.authResponseStep (ClientManager.addSocket initialState "s1") "s1" true false 200
        (some authBodySeven)))
    7 (by decide)

/-- Counterexample to C7 as stated: through the operation set that includes
setUserPresenceList, uid 5 enters onlineUsers with neither a socket nor an
armed timer; and already without that verb, an anonymous authentication
yields a socket with uid 0 while 0 is not in onlineUsers, so the stated
equivalence fails for u = 0. -/
theorem onlineUsers_claim_counterexample :
    (ReachableFull presenceListBadState ∧
      mapHas presenceListBadState.onlineUsers 5 = true ∧
      ¬ ((∃ p ∈ presenceListBadState.sockets, p.2.uid = 5) ∨
        5 ∈ presenceListBadState.presenceTimeoutIds)) ∧
    (ReachableFull anonAuthState ∧
      ((∃ p ∈ anonAuthState.sockets, p.2.uid = 0) ∨
        0 ∈ anonAuthState.presenceTimeoutIds) ∧
      mapHas anonAuthState.onlineUsers 0 = false) := by
  refine ⟨⟨?_, by decide, by decide⟩, ⟨?_, by decide, by decide⟩⟩
  · exact ReachableFull.next ReachableFull.initial
      (StepFull.setUserPresenceListStep initialState 5 [])
  · exact ReachableFull.next
      (ReachableFull.next ReachableFull.initial
        (StepFull.base (Step.addSocketStep initialState "s0" rfl)))
      (StepFull.base (Step.authResponseStep (ClientManager.addSocket initialState "s0")
        "s0" false false 200 (some anonAuthBody)))

end DrupalNodejs
